import Mathlib

/-!
Shallow embedding of the parameter-control and preset-persistence core of
`springhall_ui.py` (SpringHall reverb pedal UI), together with theorems that
settle the spec claims C1..C10 against the code.

Conventions used throughout:
* Python `int` slider/dial raw values are `ℕ` (the widget ranges are 0..100
  and 0..1000, so nonnegative).
* Python `float` parameter/preset values are modelled as `ℚ` (the program
  only adds, multiplies and divides them).
* Python dicts (which preserve insertion order) are modelled as association
  lists `List (String × α)`; assignment to a fresh key appends, assignment to
  an existing key replaces in place, `pop` removes the entry.
-/

/-! ### Association-list helpers (Python `dict` semantics) -/

/-- `m.get(k)` on a Python dict: first (unique) entry with key `k`. -/
def assocFind {α : Type} (m : List (String × α)) (k : String) : Option α :=
  (m.find? (fun e => e.1 == k)).map (fun e => e.2)

/-- `m[k] = v` on a Python dict: replace in place if `k` is present,
otherwise append at the end (insertion order). -/
def assocSet {α : Type} (m : List (String × α)) (k : String) (v : α) :
    List (String × α) :=
  if m.any (fun e => e.1 == k) then
    m.map (fun e => if e.1 == k then (k, v) else e)
  else m ++ [(k, v)]

/-- Key list of a Python dict (insertion order). -/
def assocKeys {α : Type} (m : List (String × α)) : List String :=
  m.map (fun e => e.1)

/-- `dst.update(src)` / merging loop `for k, v in src.items(): dst[k] = v`. -/
def assocMerge (dst src : List (String × ℚ)) : List (String × ℚ) :=
  src.foldl (fun acc e => assocSet acc e.1 e.2) dst

/-! ### Unit conversion & two-way binding (C1, C4)

Embeds the module-level `sync_controls` (springhall_ui.py:205-224) and the
per-control closures `knob_to_slider` / `slider_to_knob`
(springhall_ui.py:1024-1043) wired in `_show_edit_preset`, plus the two
display-label slots connected to `valueChanged`. -/

/-- Python `f"{n:02}"` for a nonnegative int (LCD text under the knob). -/
def pad2 (n : ℕ) : String := if n < 10 then "0" ++ toString n else toString n

/-- Python `f"{v / 10:.1f}"` for the slider's numeric label
(`v` is the raw 0..1000 slider value, one decimal digit). -/
def fmt1 (v : ℕ) : String := toString (v / 10) ++ "." ++ toString (v % 10)

/-- The live representations of one bound parameter: the dial (0..100), the
slider (0..1000), the LCD label under the dial, the numeric label under the
slider, and the shared `preset_values[key]` cache. -/
structure CtrlState where
  knob : ℕ
  slider : ℕ
  lcd : String
  sliderLabel : String
  preset : ℚ
deriving DecidableEq

/-- Closure `slider_to_knob` (springhall_ui.py:1034-1041), run when the
slider's `valueChanged`/`sliderMoved` fires with raw value `sv`:
`kv = int(sv / 10)`; write the dial only if its value differs (the write is
done with the dial's signals blocked, so the dial's own handlers do not
fire); then `preset_values[key] = kv` unconditionally.  Returns the updated
state and the number of representation writes performed. -/
def slider_to_knob (st : CtrlState) (sv : ℕ) : CtrlState × ℕ :=
  let kv := sv / 10
  if st.knob ≠ kv then
    ({ st with knob := kv, preset := (kv : ℚ) }, 1)
  else
    ({ st with preset := (kv : ℚ) }, 0)

/-- Closure `knob_to_slider` (springhall_ui.py:1024-1031), run when the
dial's `valueChanged` fires with value `kv`: `sv = kv * 10`; write the
slider only if its value differs (with the slider's signals blocked); then
`preset_values[key] = kv`. -/
def knob_to_slider (st : CtrlState) (kv : ℕ) : CtrlState × ℕ :=
  let sv := kv * 10
  if st.slider ≠ sv then
    ({ st with slider := sv, preset := (kv : ℚ) }, 1)
  else
    ({ st with preset := (kv : ℚ) }, 0)

/-- The module-level registries `knob_widget_map`, `slider_widget_map` and
`slider_label_map` (springhall_ui.py:52-54).  In the program
`knob_widget_map` is never populated. -/
structure WidgetMaps where
  knob_widget_map : List (String × ℕ)
  slider_widget_map : List (String × ℕ)
  slider_label_map : List (String × String)
deriving DecidableEq

/-- Module-level `sync_controls(name, value, source)`
(springhall_ui.py:205-224).  Writes are applied with the target's signals
blocked; the slider-label refresh in the `"knob"` branch happens only when
the slider itself was written.  Returns the updated maps and the number of
representation writes. -/
def sync_controls (w : WidgetMaps) (name : String) (value : ℕ)
    (source : String) : WidgetMaps × ℕ :=
  if source = "slider" then
    match assocFind w.knob_widget_map name with
    | some kv =>
      if kv ≠ value / 10 then
        ({ w with knob_widget_map :=
            assocSet w.knob_widget_map name (value / 10) }, 1)
      else (w, 0)
    | none => (w, 0)
  else if source = "knob" then
    match assocFind w.slider_widget_map name with
    | some sv =>
      if sv ≠ value * 10 then
        let w1 := { w with
                    slider_widget_map := assocSet w.slider_widget_map name (value * 10) }
        match assocFind w1.slider_label_map name with
        | some _ =>
          ({ w1 with slider_label_map :=
              assocSet w1.slider_label_map name (pad2 value) }, 2)
        | none => (w1, 1)
      else (w, 0)
    | none => (w, 0)
  else (w, 0)

/-- An external (user) change of the slider to raw value `v`: the slider
takes the value and its `valueChanged` slots run in connection order — the
numeric-label lambda (springhall_ui.py:1417), `sync_controls` with the empty
`knob_widget_map` (springhall_ui.py:1418, a no-op), and `slider_to_knob`
(springhall_ui.py:1042).  The dial write inside `slider_to_knob` is
signal-blocked, so the dial's LCD lambda does not fire. -/
def externalSliderChange (st : CtrlState) (v : ℕ) : CtrlState × ℕ :=
  let st1 := { st with slider := v }
  let st2 := { st1 with sliderLabel := fmt1 v }
  let r := slider_to_knob st2 v
  (r.1, 1 + r.2)

/-- An external (user) change of the dial to value `kv`: the dial takes the
value and its `valueChanged` slots run in connection order —
`knob_to_slider` (springhall_ui.py:1032) and the LCD lambda
(springhall_ui.py:1046).  The slider write inside `knob_to_slider` is
signal-blocked, so the slider's own slots do not fire. -/
def externalKnobChange (st : CtrlState) (kv : ℕ) : CtrlState × ℕ :=
  let st1 := { st with knob := kv }
  let r := knob_to_slider st1 kv
  (({ r.1 with lcd := pad2 kv }), r.2 + 1)

/-- Number of live representations of a bound parameter on the edit page:
dial, slider, LCD label, slider numeric label. -/
def liveRepresentations : ℕ := 4

/-- Initial state of a bound control pair (dial 0, slider 0). -/
def initCtrl : CtrlState := ⟨0, 0, "00", "0.0", 0⟩

/-! ### Main (grid) preset store (C2, C3, C8, C9)

Embeds `SpringHallUI._next_pos` / `_save_preset` (springhall_ui.py:1464-1517),
`_load_preset` (1519-1551), `PresetsWindow._rename` (662-678) and
`PresetsWindow._delete` (680-693).  The `PresetsWindow` operates on the very
dict `SpringHallUI.presets`, so all of these act on one state. -/

/-- One entry of `self.presets`: `{"position": ..., "values": ...,
"modulation": {"mod": ..., "bic": ..., "ech": ...}}`
(springhall_ui.py:1492-1500). -/
structure MainPreset where
  position : String
  values : List (String × ℚ)
  modMod : List (String × ℚ)
  modBic : List (String × ℚ)
  modEch : List (String × ℚ)
deriving DecidableEq

/-- The state touched by the main-store preset logic: the `self.presets`
dict, the contents of `presets.json` on disk, the transient selection
(`self.current_preset_name` / `_position`), the six slider widgets' raw
values (`self.slider_widgets`), the three module-level live modulation
value maps, and the modulation-page knob widgets.  `modKnobsLive` models
whether `self.mod_knobs` / `self.bic_knobs` / `self.ech_knobs` exist — the
three attributes are always assigned together (springhall_ui.py:1921-1923
and 2512-2514) and persist after the page closes, so one flag stands for
all three `hasattr` checks; the three knob maps hold each dial's current
value (range 0..100) in the insertion order of the source's dict
literals. -/
structure MainState where
  presets : List (String × MainPreset)
  disk : List (String × MainPreset)
  currentName : String
  currentPos : String
  sliders : List (String × ℕ)
  liveMod : List (String × ℚ)
  liveBic : List (String × ℚ)
  liveEch : List (String × ℚ)
  modKnobsLive : Bool
  modKnobs : List (String × ℕ)
  bicKnobs : List (String × ℕ)
  echKnobs : List (String × ℕ)
deriving DecidableEq

/-- The 24 grid coordinates `f"{r}{c}"` for `r` in `range(1, 5)` and `c` in
`"ABCDEF"`, in the scan order of `_next_pos` (springhall_ui.py:1465-1469). -/
def gridSlots : List String :=
  [1, 2, 3, 4].flatMap (fun r => ['A', 'B', 'C', 'D', 'E', 'F'].map
    (fun c => (toString r).push c))

/-- First grid coordinate not in `used`, else the sentinel `"??"`
(`_next_pos` body, springhall_ui.py:1464-1472). -/
def nextPosOfUsed (used : List String) : String :=
  (gridSlots.find? (fun p => !(used.contains p))).getD "??"

/-- Positions currently occupied:
`used = {p["position"] for p in self.presets.values()}`. -/
def usedPositions (presets : List (String × MainPreset)) : List String :=
  presets.map (fun e => e.2.position)

/-- `SpringHallUI._next_pos` (springhall_ui.py:1464-1472). -/
def next_pos (presets : List (String × MainPreset)) : String :=
  nextPosOfUsed (usedPositions presets)

/-- Outcome of `_save_preset` as observable through its dialogs. -/
inductive SaveOutcome where
  | cancelled
  | invalidInput
  | duplicateName
  | saved (pos : String)
deriving DecidableEq

/-- `SpringHallUI._save_preset` (springhall_ui.py:1474-1517).
`suggested = self._next_pos()` is computed up front; a cancelled dialog or
an empty name returns without touching anything; a duplicate name shows the
error dialog and returns with the store unchanged; otherwise the preset is
stored (dict insert of a fresh key appends), the slider values are captured
as `s.value() / 10`, the three live modulation maps are captured by
`.copy()`, the whole dict is written to `presets.json`, and the current
name/position are set.  `name` stands for the stripped dialog text
(`dlg.get_values().strip()`; `get_values` already returns stripped text, so
stripping is the identity on it). -/
def save_preset (s : MainState) (dialogAccepted : Bool) (name : String) :
    SaveOutcome × MainState :=
  let suggested := next_pos s.presets
  if !dialogAccepted then (.cancelled, s)
  else
    if name = "" then (.invalidInput, s)
    else if (assocKeys s.presets).contains name then (.duplicateName, s)
    else
      let vals := s.sliders.map (fun e => (e.1, (e.2 : ℚ) / 10))
      let entry : MainPreset :=
        ⟨suggested, vals, s.liveMod, s.liveBic, s.liveEch⟩
      let ps := s.presets ++ [(name, entry)]
      (.saved suggested,
        { s with presets := ps, disk := ps,
                 currentName := name, currentPos := suggested })

/-- Python `int(q)` for a rational: truncation toward zero
(`Int` division `/` truncates toward zero). -/
def pyInt (q : ℚ) : ℤ := q.num / (q.den : ℤ)

/-- `QDial.setValue` bounds its argument to the dial's 0..100 range. -/
def qtClamp (z : ℤ) : ℕ := (max 0 (min 100 z)).toNat

/-- One `hasattr`-guarded refresh loop of `_load_preset`
(springhall_ui.py:1539-1540 and the like): for each knob, in dict order,
`knob.setValue(int(live.get(label, 0)))`; `setValue` emits `valueChanged`
only when the dial's value actually changes, and the knob's handler
(springhall_ui.py:1893-1895 etc.) then writes the new integer dial value
back into the live map — so the live map's entry is replaced by its own
int-truncated, range-clamped image whenever the dial moved.  Returns the
updated knob values and the updated live map. -/
def refresh_knobs (knobs : List (String × ℕ)) (live : List (String × ℚ)) :
    List (String × ℕ) × List (String × ℚ) :=
  knobs.foldl
    (fun acc e =>
      let target := qtClamp (pyInt ((assocFind acc.2 e.1).getD 0))
      if e.2 ≠ target then
        (acc.1 ++ [(e.1, target)], assocSet acc.2 e.1 (target : ℚ))
      else
        (acc.1 ++ [(e.1, e.2)], acc.2))
    ([], live)

/-- The value of the variable `name` after `_load_preset`'s three refresh
loops: each `for name, knob in self.<bank>_knobs.items()` rebinds the
function parameter `name`, so it ends as the last key iterated over all
three dicts (mod, then bic, then ech), or keeps the parameter's value when
every dict is empty. -/
def reboundName (param : String) (modK bicK echK : List (String × ℕ)) :
    String :=
  ((assocKeys modK ++ assocKeys bicK ++ assocKeys echK).getLast?).getD param

/-- `SpringHallUI._load_preset` (springhall_ui.py:1519-1551): absent name
does nothing; otherwise every slider widget is set to
`int(data["values"].get(n, 0) * 10)`, the stored modulation sub-maps are
merged into the three live maps, and then — when the modulation page has
been composed at least once, so `self.mod_knobs` / `bic_knobs` /
`ech_knobs` exist — the `hasattr`-guarded loops (springhall_ui.py:1538-1546)
refresh the bank knobs from the live maps, the knob handlers feed the
int-truncated dial values back into the live maps, and the loops rebind
`name`; finally `self.current_preset_name, self.current_preset_position =
name, data["position"]` — with `name` being the loaded preset's name only
when no knob loop ran, and the last knob label otherwise.  The store and
the disk file are not touched.  (The slider/LCD labels and the edit-page
`preset_values` cache the slider signals feed are widgets outside this
state.) -/
def load_preset (s : MainState) (name : String) : MainState :=
  match assocFind s.presets name with
  | none => s
  | some data =>
    let sliders := s.sliders.map (fun e =>
      (e.1, (pyInt (((assocFind data.values e.1).getD 0) * 10)).toNat))
    let liveMod := assocMerge s.liveMod data.modMod
    let liveBic := assocMerge s.liveBic data.modBic
    let liveEch := assocMerge s.liveEch data.modEch
    if s.modKnobsLive then
      let rm := refresh_knobs s.modKnobs liveMod
      let rb := refresh_knobs s.bicKnobs liveBic
      let re := refresh_knobs s.echKnobs liveEch
      { s with sliders := sliders,
               liveMod := rm.2, liveBic := rb.2, liveEch := re.2,
               modKnobs := rm.1, bicKnobs := rb.1, echKnobs := re.1,
               currentName := reboundName name s.modKnobs s.bicKnobs
                 s.echKnobs,
               currentPos := data.position }
    else
      { s with sliders := sliders,
               liveMod := liveMod, liveBic := liveBic, liveEch := liveEch,
               currentName := name, currentPos := data.position }

/-- Outcome of `PresetsWindow._rename` as observable through its dialogs. -/
inductive RenameOutcome where
  | cancelled
  | invalidInput
  | duplicateName
  | keyError
  | renamed
deriving DecidableEq

/-- `PresetsWindow._rename` (springhall_ui.py:662-678), acting on the shared
`self.presets` dict of the selected entry `old`: a cancelled dialog or an
empty new name returns unchanged; `new != old and new in presets` shows the
duplicate-name dialog and returns unchanged; otherwise
`self.presets[new] = self.presets.pop(old)` removes the entry and re-inserts
its data under `new` at the end of insertion order.  No disk write happens
anywhere in `_rename`. -/
def rename_preset (s : MainState) (old : String) (dialogAccepted : Bool)
    (dialogNew : String) : RenameOutcome × MainState :=
  if !dialogAccepted then (.cancelled, s)
  else if dialogNew = "" then (.invalidInput, s)
  else if dialogNew ≠ old ∧ (assocKeys s.presets).contains dialogNew then
    (.duplicateName, s)
  else
    match assocFind s.presets old with
    | none => (.keyError, s)
    | some d =>
      (.renamed,
        { s with presets :=
            (s.presets.eraseP (fun e => e.1 == old)) ++ [(dialogNew, d)] })

/-- `PresetsWindow._delete` (springhall_ui.py:680-693): after a confirmed
dialog, `self.presets.pop(name, None)`.  No disk write. -/
def delete_preset (s : MainState) (name : String) (confirmYes : Bool) :
    MainState :=
  if confirmYes then
    { s with presets := s.presets.eraseP (fun e => e.1 == name) }
  else s

/-- Folding a sequence of accepted saves (used for the 24-saves property). -/
def saveAll (s : MainState) (names : List String) : MainState :=
  names.foldl (fun st n => (save_preset st true n).2) s

/-! ### Modulation-unit preset banks (C3, C7)

Embeds the nested `save_preset` closure of the modulation window
(springhall_ui.py:1851-1872) and the bank loader `load_presets` in
`SpringHallUI.__init__` (springhall_ui.py:789-798). -/

/-- A bank store (`self.bic_presets` etc.): name ↦ knob-value map.
No slot/grid concept. -/
abbrev BankStore : Type := List (String × List (String × ℚ))

/-- Outcome of the modulation-window `save_preset` closure. -/
inductive BankSaveOutcome where
  | cancelled
  | invalidInput
  | overwriteDeclined
  | overwritten
  | saved
deriving DecidableEq

/-- Modulation-window `save_preset(presets_dict, ...)`
(springhall_ui.py:1851-1872): a cancelled dialog or empty name returns
unchanged; if the name already exists an Overwrite? dialog is shown —
answering No returns unchanged, answering Yes falls through to
`presets_dict[name] = get_knobs_func()`, which replaces the existing
entry's values in place; a fresh name appends.  (The closure then sets the
bank's current-preset attribute and persists via `save_mod_presets`.) -/
def bank_save_preset (store : BankStore) (dialogAccepted : Bool)
    (name : String) (knobVals : List (String × ℚ)) (overwriteYes : Bool) :
    BankSaveOutcome × BankStore :=
  if !dialogAccepted then (.cancelled, store)
  else if name = "" then (.invalidInput, store)
  else if (assocKeys store).contains name then
    if !overwriteYes then (.overwriteDeclined, store)
    else (.overwritten, assocSet store name knobVals)
  else (.saved, store ++ [(name, knobVals)])

/-- What a preset file on disk can look like, abstracting the bytes into
their JSON parse outcome: absent, unparseable, or parsing to a store. -/
inductive BankFile where
  | missing
  | malformed
  | parses (content : BankStore)

/-- The nested `load_presets(path)` in `SpringHallUI.__init__`
(springhall_ui.py:790-794): a missing file yields `{}`; an existing file is
handed to `json.load` with no exception handling, so a malformed file raises
`json.JSONDecodeError` out of `__init__` (modelled as `Except.error`). -/
def bank_load_presets (f : BankFile) : Except String BankStore :=
  match f with
  | .missing => .ok []
  | .parses c => .ok c
  | .malformed => .error "json.JSONDecodeError"

/-- What `presets.json` can look like on disk, as its parse outcome. -/
inductive MainFile where
  | missing
  | malformed
  | parses (content : List (String × MainPreset))

/-- The main-store load in `SpringHallUI.__init__`
(springhall_ui.py:847-855): `self.presets = {}` beforehand; a missing file
leaves it empty; an existing file is parsed inside `try/except`, so a
malformed file prints the error (second component `true`) and the store
stays empty for the session. -/
def main_load_presets (f : MainFile) : List (String × MainPreset) × Bool :=
  match f with
  | .missing => ([], false)
  | .parses c => (c, false)
  | .malformed => ([], true)

/-! ### Corner-blend surface (C5, C6)

Embeds `SoniSphere.clamp_point_to_circle` (springhall_ui.py:2920-2930),
`mouseMoveEvent` (3082-3094), `reset_positions` (2913-2918) and
`calculate_blend` (3106-3126).  The clamp involves a square root, so that
part is modelled over `ℝ`; `calculate_blend` is pure field arithmetic and is
modelled over `ℚ` so that witnesses can evaluate it. -/

/-- A `QPointF`. -/
abbrev Point : Type := ℝ × ℝ

/-- Python `(dx**2 + dy**2)**0.5`: euclidean distance between two points. -/
noncomputable def dist_to (p c : Point) : ℝ :=
  Real.sqrt ((p.1 - c.1) ^ 2 + (p.2 - c.2) ^ 2)

/-- `SoniSphere.clamp_point_to_circle(point, center, radius)`
(springhall_ui.py:2920-2930): if the point's distance from the center
exceeds `radius`, scale the offset vector by `radius / dist`; otherwise the
point passes through unchanged. -/
noncomputable def clamp_point_to_circle (point center : Point) (radius : ℝ) :
    Point :=
  let dx := point.1 - center.1
  let dy := point.2 - center.2
  let dist := Real.sqrt (dx ^ 2 + dy ^ 2)
  if radius < dist then
    let scale := radius / dist
    (center.1 + dx * scale, center.2 + dy * scale)
  else point

/-- The `SoniSphere` widget state relevant to the cursor logic: fixed size
(1024 × 600 in the program), the two cursor positions, and the drag flags. -/
structure SoniSphereState where
  width : ℝ
  height : ℝ
  cursor_pos : Point
  secondary_pos : Point
  dragging : Bool
  secondary_dragging : Bool

/-- `SoniSphere.mouseMoveEvent` (springhall_ui.py:3082-3094): with
`center = (width/2, height/2)` and `radius = 200`, a drag of the primary
cursor clamps the event position into the circle and stores it; else a drag
of the secondary cursor does the same for it; otherwise nothing happens. -/
noncomputable def mouseMoveEvent (s : SoniSphereState) (eventPos : Point) :
    SoniSphereState :=
  let center : Point := (s.width / 2, s.height / 2)
  let radius : ℝ := 200
  if s.dragging then
    { s with cursor_pos := clamp_point_to_circle eventPos center radius }
  else if s.secondary_dragging then
    { s with secondary_pos := clamp_point_to_circle eventPos center radius }
  else s

/-- `SoniSphere.reset_positions` (springhall_ui.py:2913-2918): recenters the
cursors to `(cx - 20, cy)` and `(cx + 20, cy)`. -/
noncomputable def reset_positions (s : SoniSphereState) : SoniSphereState :=
  { s with cursor_pos := (s.width / 2 - 20, s.height / 2),
           secondary_pos := (s.width / 2 + 20, s.height / 2) }

/-- Invariant claimed by the spec: both stored cursor positions lie inside
or on the circle of radius 200 around the surface center. -/
def insideCircle (s : SoniSphereState) : Prop :=
  dist_to s.cursor_pos (s.width / 2, s.height / 2) ≤ 200 ∧
  dist_to s.secondary_pos (s.width / 2, s.height / 2) ≤ 200

/-- The four corner weights returned by `calculate_blend`. -/
structure Blend where
  A : ℚ
  B : ℚ
  C : ℚ
  D : ℚ
deriving DecidableEq

/-- `SoniSphere.calculate_blend` (springhall_ui.py:3106-3126): normalize the
primary cursor to the bounding box, form the bilinear weights, then divide
every weight by `total if total != 0 else 1`. -/
def calculate_blend (cursor : ℚ × ℚ) (w h : ℚ) : Blend :=
  let x := cursor.1 / w
  let y := cursor.2 / h
  let top := 1 - y
  let bottom := y
  let left := 1 - x
  let right := x
  let bA := left * top
  let bB := right * top
  let bC := left * bottom
  let bD := right * bottom
  let total := bA + bB + bC + bD
  let d := if total ≠ 0 then total else 1
  ⟨bA / d, bB / d, bC / d, bD / d⟩

/-! ### Save-time snapshot of the modulation maps (C10)

`_save_preset` stores `mod_value_map.copy()`, `bic_value_map.copy()`,
`ech_value_map.copy()` (springhall_ui.py:1495-1499), while the modulation
knobs mutate the live maps in place via
`knob.valueChanged.connect(lambda val, n=name: bic_value_map.update({n: val}))`
(springhall_ui.py:1893-1895, 1904-1906, 1917-1919).  To make the aliasing
visible, dicts live in an explicit heap of cells addressed by `ℕ`
references; `.copy()` allocates a fresh cell with the same contents. -/

/-- A value map (one of the Python dicts holding knob values). -/
abbrev ValMap : Type := List (String × ℚ)

/-- Heap read (a dangling reference reads as the empty dict; never hit under
the well-formedness hypothesis). -/
def readRef (h : List ValMap) (r : ℕ) : ValMap := h.getD r []

/-- Heap write: in-place mutation of the cell `r` points to. -/
def writeRef (h : List ValMap) (r : ℕ) (m : ValMap) : List ValMap := h.set r m

/-- Heap-level state for the snapshot claim: the heap of dict cells, the
references held by the three module-level live maps (`mod_value_map`,
`bic_value_map`, `ech_value_map`), and for each saved main preset the
references its `"modulation"` entry holds. -/
structure SnapshotState where
  heap : List ValMap
  liveModRef : ℕ
  liveBicRef : ℕ
  liveEchRef : ℕ
  presetRefs : List (String × (ℕ × ℕ × ℕ))

/-- The live references point into the heap. -/
def SnapshotWF (s : SnapshotState) : Prop :=
  s.liveModRef < s.heap.length ∧ s.liveBicRef < s.heap.length ∧
  s.liveEchRef < s.heap.length

/-- The `"modulation"` part of `_save_preset` (springhall_ui.py:1495-1499):
three `.copy()` calls allocate fresh cells holding the live maps' current
contents, and the saved preset records references to those fresh cells. -/
def save_snapshot (s : SnapshotState) (name : String) : SnapshotState :=
  let rMod := s.heap.length
  let h1 := s.heap ++ [readRef s.heap s.liveModRef]
  let rBic := h1.length
  let h2 := h1 ++ [readRef s.heap s.liveBicRef]
  let rEch := h2.length
  let h3 := h2 ++ [readRef s.heap s.liveEchRef]
  { s with heap := h3, presetRefs := s.presetRefs ++ [(name, (rMod, rBic, rEch))] }

/-- One modulation-knob turn: which bank, which knob, new value. -/
inductive KnobChange where
  | mod (n : String) (v : ℚ)
  | bic (n : String) (v : ℚ)
  | ech (n : String) (v : ℚ)

/-- The `valueChanged` handler of a modulation knob
(springhall_ui.py:1893-1895 etc.): `<bank>_value_map.update({n: val})`,
an in-place mutation of the live map's cell. -/
def apply_knob_change (s : SnapshotState) (c : KnobChange) : SnapshotState :=
  match c with
  | .mod n v =>
    let m := assocSet (readRef s.heap s.liveModRef) n v
    { s with heap := writeRef s.heap s.liveModRef m }
  | .bic n v =>
    let m := assocSet (readRef s.heap s.liveBicRef) n v
    { s with heap := writeRef s.heap s.liveBicRef m }
  | .ech n v =>
    let m := assocSet (readRef s.heap s.liveEchRef) n v
    { s with heap := writeRef s.heap s.liveEchRef m }

/-- A sequence of later modulation-knob changes. -/
def apply_knob_changes (s : SnapshotState) (cs : List KnobChange) :
    SnapshotState :=
  cs.foldl apply_knob_change s

/-! ### Concrete states used by witnesses and counterexamples -/

/-- A stored preset used in concrete scenarios. -/
def demoPresetA : MainPreset := ⟨"1A", [("DECAY", 5)], [], [], []⟩

/-- A second stored preset used in concrete scenarios. -/
def demoPresetC : MainPreset := ⟨"1B", [("DECAY", 7)], [], [], []⟩

/-- A concrete main-window state holding preset "A", with the disk file in
sync with the store. -/
def demoMain : MainState :=
  ⟨[("A", demoPresetA)], [("A", demoPresetA)], "SpringHall", "1A",
   [("DECAY", 500)], [("Speed", 0)], [("Rate", 0)], [("Time", 0)],
   false, [], [], []⟩

/-- A concrete main-window state holding presets "A" and "C", with the disk
file in sync with the store. -/
def demoMain2 : MainState :=
  ⟨[("A", demoPresetA), ("C", demoPresetC)],
   [("A", demoPresetA), ("C", demoPresetC)], "SpringHall", "1A",
   [("DECAY", 500)], [("Speed", 0)], [("Rate", 0)], [("Time", 0)],
   false, [], [], []⟩

/-- The rational 5/2, written as its reduced-fraction literal so that
kernel evaluation can compute with it. -/
def demoRate : ℚ := ⟨5, 2, by norm_num, by norm_num⟩

/-- A stored preset whose chorus-bank snapshot holds the non-integer
`Rate = 5/2`, used to exhibit the knob-feedback truncation. -/
def demoPresetX : MainPreset :=
  ⟨"2B", [("DECAY", 40)], [], [("Rate", demoRate)], []⟩

/-- A concrete main-window state after the modulation page has been
composed: `self.mod_knobs` / `bic_knobs` / `ech_knobs` exist, holding the
program's knob dicts (springhall_ui.py:1886-1915) with every dial at 0. -/
def demoMainMod : MainState :=
  ⟨[("X", demoPresetX)], [("X", demoPresetX)], "SpringHall", "1A",
   [("DECAY", 500)], [("Speed", 0)], [("Rate", 0)], [("Time", 0)],
   true,
   [("Speed", 0), ("Shape", 0), ("Phase", 0), ("Spread", 0)],
   [("Rate", 0), ("Depth", 0), ("Tone", 0), ("Mix", 0)],
   [("Time", 0), ("FB", 0), ("Tone", 0), ("Mod", 0), ("Mix", 0),
    ("Level", 0)]⟩

/-- 24 distinct preset names for the fill-the-grid scenario. -/
def demoNames : List String :=
  ["P01", "P02", "P03", "P04", "P05", "P06", "P07", "P08", "P09", "P10",
   "P11", "P12", "P13", "P14", "P15", "P16", "P17", "P18", "P19", "P20",
   "P21", "P22", "P23", "P24"]

/-- An initially empty main-window state (fresh start, no presets.json). -/
def emptyMain : MainState :=
  ⟨[], [], "SpringHall", "1A", [("DECAY", 500)], [("Speed", 0)],
   [("Rate", 0)], [("Time", 0)], false, [], [], []⟩

/-- A concrete main-window state whose 24 presets occupy every grid slot
(preset "N1A" at "1A", ..., "N4F" at "4F"). -/
def fullMain : MainState :=
  ⟨gridSlots.map (fun p => ("N" ++ p, ⟨p, [], [], [], []⟩)),
   [], "SpringHall", "1A", [("DECAY", 500)], [], [], [],
   false, [], [], []⟩

/-- A concrete snapshot-heap state: the three live maps in cells 0, 1, 2. -/
def demoSnap : SnapshotState :=
  ⟨[[("Speed", 1)], [("Rate", 2)], [("Time", 3)]], 0, 1, 2, []⟩

/-- A concrete blend surface with the primary cursor at the exact center,
primary drag in progress. -/
noncomputable def demoSphere : SoniSphereState :=
  ⟨1024, 600, (512, 300), (532, 300), true, false⟩

/-! ## Theorems -/

/-- Claim C1, amended: propagating a change between a coarse knob (0..100)
and a fine slider (0..1000) converts with truncating integer arithmetic, not
rounding: a knob change `kv` writes `kv * 10` to the slider, but a slider
change `v` writes `v / 10` rounded *down* (Python `int(sv / 10)`) to the
knob.  Re-applying the propagation with the updated representation's own
now-current value is a no-op after a knob-originated change, and after a
slider-originated change exactly when `v` is a multiple of 10 — otherwise it
writes the slider once more.  The module-level `sync_controls` slider path
is a no-op whenever the name has no registered knob (always, in this
program, since `knob_widget_map` is never populated). -/
theorem C1_propagation_truncates_and_conditional_noop :
    (∀ st v, (externalSliderChange st v).1.knob = v / 10) ∧
    (∀ st kv, (externalKnobChange st kv).1.slider = kv * 10) ∧
    (∀ st kv,
      (slider_to_knob (externalKnobChange st kv).1
        ((externalKnobChange st kv).1.slider)).2 = 0) ∧
    (∀ st v, 10 ∣ v →
      (knob_to_slider (externalSliderChange st v).1
        ((externalSliderChange st v).1.knob)).2 = 0) ∧
    (∀ st v, ¬ 10 ∣ v →
      (knob_to_slider (externalSliderChange st v).1
        ((externalSliderChange st v).1.knob)).2 = 1) ∧
    (∀ w name v, assocFind w.knob_widget_map name = none →
      sync_controls w name v "slider" = (w, 0)) := by
  refine ⟨?_, ?_, ?_, ?_, ?_, ?_⟩
  · intro st v
    simp only [externalSliderChange, slider_to_knob]
    split
    · rfl
    · simp_all
  · intro st kv
    simp only [externalKnobChange, knob_to_slider]
    split
    · rfl
    · simp_all
  · intro st kv
    have hs : (externalKnobChange st kv).1.slider = kv * 10 := by
      simp only [externalKnobChange, knob_to_slider]
      split
      · rfl
      · simp_all
    have hk : (externalKnobChange st kv).1.knob = kv := by
      simp only [externalKnobChange, knob_to_slider]
      split <;> rfl
    simp only [slider_to_knob, hs, hk, Nat.mul_div_cancel _ (by norm_num : (0:ℕ) < 10)]
    simp
  · intro st v hdvd
    have hs : (externalSliderChange st v).1.slider = v := by
      simp only [externalSliderChange, slider_to_knob]
      split <;> rfl
    have hk : (externalSliderChange st v).1.knob = v / 10 := by
      simp only [externalSliderChange, slider_to_knob]
      split
      · rfl
      · simp_all
    simp only [knob_to_slider, hs, hk, Nat.div_mul_cancel hdvd]
    simp
  · intro st v hdvd
    have hs : (externalSliderChange st v).1.slider = v := by
      simp only [externalSliderChange, slider_to_knob]
      split <;> rfl
    have hk : (externalSliderChange st v).1.knob = v / 10 := by
      simp only [externalSliderChange, slider_to_knob]
      split
      · rfl
      · simp_all
    have hne : v / 10 * 10 ≠ v := by
      intro h
      exact hdvd (Dvd.intro_left (v / 10) h)
    simp only [knob_to_slider, hs, hk]
    split
    · rfl
    · simp_all [Ne.symm hne]
  · intro w name v h
    simp [sync_controls, h]

/-- Witness for C1: at slider value 20 (a multiple of 10) the re-applied
propagation performs no write; at slider value 19 it writes again; with the
program's empty `knob_widget_map`, `sync_controls` is a no-op. -/
theorem C1_propagation_truncates_and_conditional_noop_witness :
    ((10 ∣ 20) ∧
      (knob_to_slider (externalSliderChange initCtrl 20).1
        ((externalSliderChange initCtrl 20).1.knob)).2 = 0) ∧
    ((¬ 10 ∣ 19) ∧
      (knob_to_slider (externalSliderChange initCtrl 19).1
        ((externalSliderChange initCtrl 19).1.knob)).2 = 1) ∧
    (assocFind (WidgetMaps.mk [] [("DECAY", 500)] []).knob_widget_map "DECAY"
        = none ∧
      sync_controls (WidgetMaps.mk [] [("DECAY", 500)] []) "DECAY" 500
        "slider" = (WidgetMaps.mk [] [("DECAY", 500)] [], 0)) := by
  refine ⟨⟨by decide, ?_⟩, ⟨by decide, ?_⟩, ⟨by rfl, ?_⟩⟩
  · exact C1_propagation_truncates_and_conditional_noop.2.2.2.1 initCtrl 20
      (by decide)
  · exact C1_propagation_truncates_and_conditional_noop.2.2.2.2.1 initCtrl 19
      (by decide)
  · exact C1_propagation_truncates_and_conditional_noop.2.2.2.2.2
      (WidgetMaps.mk [] [("DECAY", 500)] []) "DECAY" 500 (by rfl)

/-- Counterexample to C1 as stated: after a slider change to raw value 19
the knob reads `19 / 10 = 1`, not `round(19 / 10) = 2`; and re-applying the
propagation with the knob's own now-current value is not a no-op — it
writes the slider again. -/
theorem C1_counterexample :
    (((externalSliderChange initCtrl 19).1.knob : ℤ) ≠ round ((19 : ℚ) / 10)) ∧
    (knob_to_slider (externalSliderChange initCtrl 19).1
      ((externalSliderChange initCtrl 19).1.knob)).2 ≠ 0 := by
  constructor
  · have h1 : (externalSliderChange initCtrl 19).1.knob = 1 := by rfl
    have h2 : round ((19 : ℚ) / 10) = 2 := by
      rw [round_eq]
      norm_num
    rw [h1, h2]
    decide
  · decide

/-- Claim C4, confirmed: an external change to one representation is
synchronized by a terminating pass (the handlers are total functions: the
guarded, signal-blocked sync writes never re-enter the user-change path)
that performs at most `liveRepresentations - 1 = 3` writes to the other
representations — in fact at most 2. -/
theorem C4_sync_writes_bounded :
    (∀ st v, (externalSliderChange st v).2 ≤ liveRepresentations - 1) ∧
    (∀ st kv, (externalKnobChange st kv).2 ≤ liveRepresentations - 1) := by
  constructor
  · intro st v
    simp only [externalSliderChange, slider_to_knob, liveRepresentations]
    split <;> simp
  · intro st kv
    simp only [externalKnobChange, knob_to_slider, liveRepresentations]
    split <;> simp

/-- Helper: the four returned blend weights always sum to 1 (the raw
bilinear weights sum to 1 identically, so the guard divisor is the raw sum
itself and the division renormalizes exactly). -/
theorem blend_sum_one (cursor : ℚ × ℚ) (w h : ℚ) :
    (calculate_blend cursor w h).A + (calculate_blend cursor w h).B +
      (calculate_blend cursor w h).C + (calculate_blend cursor w h).D = 1 := by
  simp only [calculate_blend]
  have htot : (1 - cursor.1 / w) * (1 - cursor.2 / h) +
      cursor.1 / w * (1 - cursor.2 / h) +
      (1 - cursor.1 / w) * (cursor.2 / h) +
      cursor.1 / w * (cursor.2 / h) = 1 := by ring
  rw [htot]
  norm_num
  exact htot

/-- Helper: at normalized coordinates `(x, y)` the blend is exactly the
bilinear weight vector of the claim. -/
theorem blend_formula (x y w h : ℚ) (hw : w ≠ 0) (hh : h ≠ 0) :
    calculate_blend (x * w, y * h) w h =
      ⟨(1 - y) * (1 - x), (1 - y) * x, y * (1 - x), y * x⟩ := by
  simp only [calculate_blend]
  rw [mul_div_cancel_right₀ x hw, mul_div_cancel_right₀ y hh]
  have htot : (1 - x) * (1 - y) + x * (1 - y) + (1 - x) * y + x * y = 1 := by
    ring
  rw [htot]
  norm_num
  refine ⟨by ring, by ring, by ring, by ring⟩

/-- Helper: the cursor at the exact surface center yields weight 1/4 for
every corner. -/
theorem blend_center (w h : ℚ) (hw : w ≠ 0) (hh : h ≠ 0) :
    calculate_blend (w / 2, h / 2) w h = ⟨1/4, 1/4, 1/4, 1/4⟩ := by
  have h2 := blend_formula (1/2) (1/2) w h hw hh
  rw [show w / 2 = 1 / 2 * w by ring, show h / 2 = 1 / 2 * h by ring, h2]
  norm_num

/-- Claim C6, confirmed: `calculate_blend` normalizes the primary cursor to
the bounding box, forms the bilinear weights `(1-y)(1-x), (1-y)x, y(1-x),
yx`, and divides by the raw sum (by 1 — leaving the weights unchanged — in
the defensive zero-total branch); the four returned weights sum to 1, and
the cursor at the exact surface center yields 0.25 each. -/
theorem C6_blend_weights :
    (∀ (cursor : ℚ × ℚ) (w h : ℚ),
      (calculate_blend cursor w h).A + (calculate_blend cursor w h).B +
        (calculate_blend cursor w h).C + (calculate_blend cursor w h).D = 1) ∧
    (∀ x y w h : ℚ, w ≠ 0 → h ≠ 0 →
      calculate_blend (x * w, y * h) w h =
        ⟨(1 - y) * (1 - x), (1 - y) * x, y * (1 - x), y * x⟩) ∧
    (∀ w h : ℚ, w ≠ 0 → h ≠ 0 →
      calculate_blend (w / 2, h / 2) w h = ⟨1/4, 1/4, 1/4, 1/4⟩) :=
  ⟨blend_sum_one, blend_formula, blend_center⟩

/-- Witness for C6 on the program's fixed 1024 × 600 surface: the cursor at
(512, 300) — the exact center — blends to a quarter per corner. -/
theorem C6_blend_weights_witness :
    (1024 : ℚ) ≠ 0 ∧ (600 : ℚ) ≠ 0 ∧
    calculate_blend ((1024 : ℚ) / 2, (600 : ℚ) / 2) 1024 600 =
      ⟨1/4, 1/4, 1/4, 1/4⟩ :=
  ⟨by norm_num, by norm_num,
    C6_blend_weights.2.2 1024 600 (by norm_num) (by norm_num)⟩

/-- Helper: Boolean `any` over entry keys agrees with `contains` on the key
list. -/
theorem any_fst_eq_contains {α : Type} (m : List (String × α)) (k : String) :
    m.any (fun e => e.1 == k) = (assocKeys m).contains k := by
  induction m with
  | nil => rfl
  | cons e rest ih =>
    by_cases h : e.1 = k
    · simp [assocKeys, List.any_cons, h]
    · have h1 : (e.1 == k) = false := beq_eq_false_iff_ne.mpr h
      have h2 : (k == e.1) = false := beq_eq_false_iff_ne.mpr (Ne.symm h)
      simp [assocKeys, List.any_cons, ih, h1, h2]

/-- Helper: the in-place-replacement map of `assocSet` leaves the key list
(and hence the entry count and order) unchanged. -/
theorem keys_map_replace {α : Type} (m : List (String × α)) (k : String)
    (v : α) :
    assocKeys (m.map (fun e => if e.1 == k then (k, v) else e)) =
      assocKeys m := by
  induction m with
  | nil => rfl
  | cons e rest ih =>
    by_cases h : e.1 = k
    · simpa [assocKeys, h] using ih
    · simpa [assocKeys, h] using ih

/-- Helper: replacing the value of a key that is present leaves the key
list unchanged. -/
theorem assocSet_keys {α : Type} (m : List (String × α)) (k : String) (v : α)
    (h : k ∈ assocKeys m) :
    assocKeys (assocSet m k v) = assocKeys m := by
  rw [assocSet, if_pos]
  · exact keys_map_replace m k v
  · rw [any_fst_eq_contains]
    exact List.elem_iff.mpr h

/-- Claim C3, amended: only the main rig store rejects a duplicate-name save
unconditionally (leaving the store and everything else unchanged).  Each of
the three modulation-unit banks instead prompts to overwrite: answering No
leaves the bank unchanged, answering Yes replaces the existing entry's
values in place — the bank still holds exactly one entry under that name
(same key list), but with the new contents, not the original ones. -/
theorem C3_duplicate_name_save :
    (∀ s name, name ≠ "" → name ∈ assocKeys s.presets →
      save_preset s true name = (.duplicateName, s)) ∧
    (∀ (store : BankStore) name vals, name ≠ "" → name ∈ assocKeys store →
      bank_save_preset store true name vals false =
        (.overwriteDeclined, store)) ∧
    (∀ (store : BankStore) name vals, name ≠ "" → name ∈ assocKeys store →
      bank_save_preset store true name vals true =
        (.overwritten, assocSet store name vals)) ∧
    (∀ (store : BankStore) name vals, name ∈ assocKeys store →
      assocKeys (assocSet store name vals) = assocKeys store) := by
  refine ⟨?_, ?_, ?_, ?_⟩
  · intro s name hname hdup
    simp [save_preset, hname, hdup]
  · intro store name vals hname hdup
    simp [bank_save_preset, hname, hdup]
  · intro store name vals hname hdup
    simp [bank_save_preset, hname, hdup]
  · intro store name vals h
    exact assocSet_keys store name vals h

/-- Witness for C3: a duplicate-name save against the concrete one-preset
states, in all three modes (main store reject, bank decline, bank
overwrite). -/
theorem C3_duplicate_name_save_witness :
    ("A" : String) ≠ "" ∧
    "A" ∈ assocKeys demoMain.presets ∧
    save_preset demoMain true "A" = (.duplicateName, demoMain) ∧
    "A" ∈ assocKeys [("A", [("Rate", (1 : ℚ))])] ∧
    bank_save_preset [("A", [("Rate", (1 : ℚ))])] true "A" [("Rate", 2)]
      false = (.overwriteDeclined, [("A", [("Rate", 1)])]) ∧
    bank_save_preset [("A", [("Rate", (1 : ℚ))])] true "A" [("Rate", 2)]
      true = (.overwritten, assocSet [("A", [("Rate", 1)])] "A" [("Rate", 2)]) := by
  refine ⟨by decide, by decide, ?_, by decide, ?_, ?_⟩
  · exact C3_duplicate_name_save.1 demoMain "A" (by decide) (by decide)
  · exact C3_duplicate_name_save.2.1 [("A", [("Rate", 1)])] "A" [("Rate", 2)]
      (by decide) (by decide)
  · exact C3_duplicate_name_save.2.2.1 [("A", [("Rate", 1)])] "A"
      [("Rate", 2)] (by decide) (by decide)

/-- Counterexample to C3 as stated: on a modulation bank holding `"A"` with
`Rate = 1`, a second save under the name `"A"` (overwrite confirmed) is not
rejected — the store afterwards holds `"A"` with the new contents
`Rate = 2`, not its original contents. -/
theorem C3_counterexample :
    bank_save_preset [("A", [("Rate", (1 : ℚ))])] true "A" [("Rate", 2)]
      true = (.overwritten, [("A", [("Rate", 2)])]) ∧
    [("Rate", (2 : ℚ))] ≠ [("Rate", (1 : ℚ))] := by
  constructor
  · rfl
  · decide

/-- Claim C7, amended: only the main store's `presets.json` load is fully
best-effort — a missing file leaves the store empty and a malformed file is
caught, reported, and leaves the store empty for the session.  The three
modulation-unit banks tolerate a missing file (empty store) but parse an
existing file with no exception handling, so a malformed bank file raises
an uncaught parse error out of the constructor instead of yielding an empty
store. -/
theorem C7_load_best_effort :
    main_load_presets .missing = ([], false) ∧
    (∀ c, main_load_presets (.parses c) = (c, false)) ∧
    main_load_presets .malformed = ([], true) ∧
    bank_load_presets .missing = .ok [] ∧
    (∀ c, bank_load_presets (.parses c) = .ok c) ∧
    bank_load_presets .malformed = .error "json.JSONDecodeError" :=
  ⟨rfl, fun _ => rfl, rfl, rfl, fun _ => rfl, rfl⟩

/-- Counterexample to C7 as stated: a malformed modulation-bank file makes
construction raise (an uncaught `json.JSONDecodeError`), rather than
reporting the error and starting that store empty. -/
theorem C7_counterexample :
    bank_load_presets .malformed = .error "json.JSONDecodeError" ∧
    ∀ c, bank_load_presets .malformed ≠ .ok c := by
  constructor
  · rfl
  · intro c h
    exact Except.noConfusion h

/-- Claim C9, amended: `_load_preset` applies the stored preset's data and
leaves the store and its disk file untouched, but it *does* mutate the
transient selection, and what it writes depends on whether the modulation
page has ever been composed.  Always, the current position becomes the
loaded preset's slot.  Before the page exists (no `mod_knobs` etc.
attributes), the current name becomes the loaded preset's name and the
live maps receive the stored sub-maps.  Once the page has existed, the
`hasattr`-guarded refresh loops run: their `for name, knob in ...` headers
rebind `name`, so the current name becomes the last knob label of the last
bank dict (not the loaded preset's name), and the knob handlers feed each
moved dial's int-truncated, range-clamped value back into the live maps. -/
theorem C9_load_sets_selection :
    ∀ s name data, assocFind s.presets name = some data →
      (load_preset s name).presets = s.presets ∧
      (load_preset s name).disk = s.disk ∧
      (load_preset s name).currentPos = data.position ∧
      (s.modKnobsLive = false →
        (load_preset s name).currentName = name ∧
        (load_preset s name).liveBic = assocMerge s.liveBic data.modBic) ∧
      (s.modKnobsLive = true →
        (load_preset s name).currentName =
          reboundName name s.modKnobs s.bicKnobs s.echKnobs ∧
        (load_preset s name).liveBic =
          (refresh_knobs s.bicKnobs (assocMerge s.liveBic data.modBic)).2) := by
  intro s name data h
  by_cases hml : s.modKnobsLive
  · refine ⟨?_, ?_, ?_, ?_, ?_⟩ <;>
      simp [load_preset, h, hml]
  · refine ⟨?_, ?_, ?_, ?_, ?_⟩ <;>
      simp [load_preset, h, hml]

/-- Witness for C9, exercising both regimes: loading "A" on the
pre-modulation-page state sets the selection to "A"; loading "X" on the
post-modulation-page state sets the selection to the rebound loop variable
(the last knob label) and routes the live chorus map through the knob
refresh. -/
theorem C9_load_sets_selection_witness :
    (assocFind demoMain.presets "A" = some demoPresetA ∧
      demoMain.modKnobsLive = false ∧
      (load_preset demoMain "A").currentName = "A" ∧
      (load_preset demoMain "A").currentPos = demoPresetA.position ∧
      (load_preset demoMain "A").presets = demoMain.presets ∧
      (load_preset demoMain "A").disk = demoMain.disk) ∧
    (assocFind demoMainMod.presets "X" = some demoPresetX ∧
      demoMainMod.modKnobsLive = true ∧
      (load_preset demoMainMod "X").currentName =
        reboundName "X" demoMainMod.modKnobs demoMainMod.bicKnobs
          demoMainMod.echKnobs ∧
      (load_preset demoMainMod "X").liveBic =
        (refresh_knobs demoMainMod.bicKnobs
          (assocMerge demoMainMod.liveBic demoPresetX.modBic)).2) := by
  have h1 := C9_load_sets_selection demoMain "A" demoPresetA (by decide)
  have h2 := C9_load_sets_selection demoMainMod "X" demoPresetX (by decide)
  exact ⟨⟨by decide, by decide, (h1.2.2.2.1 (by decide)).1, h1.2.2.1, h1.1,
      h1.2.1⟩,
    ⟨by decide, by decide, (h2.2.2.2.2 (by decide)).1,
      (h2.2.2.2.2 (by decide)).2⟩⟩

/-- Counterexample to C9 as stated: the transient selection is mutated in
both regimes.  Before the modulation page exists, loading "A" over the
selection "SpringHall" sets it to "A".  Once the page has existed, loading
"X" sets the selection to "Level" — the last echo-bank knob label leaked by
the refresh loops — which is not even the loaded preset's name; and the
live chorus map's "Rate", stored as 5/2 in the preset, ends up as the
int-truncated dial value 2. -/
theorem C9_counterexample :
    (load_preset demoMain "A").currentName ≠ demoMain.currentName ∧
    demoMain.currentName = "SpringHall" ∧
    (load_preset demoMain "A").currentName = "A" ∧
    (load_preset demoMainMod "X").currentName = "Level" ∧
    (load_preset demoMainMod "X").currentName ≠ "X" ∧
    demoRate = 5 / 2 ∧
    assocFind demoPresetX.modBic "Rate" = some demoRate ∧
    assocFind (load_preset demoMainMod "X").liveBic "Rate" = some 2 := by
  have hrate : demoRate = 5 / 2 := by
    have h := Rat.num_div_den demoRate
    rw [show demoRate.num = 5 from rfl, show demoRate.den = 2 from rfl] at h
    rw [← h]
    norm_num
  refine ⟨by decide, rfl, by decide, by decide, by decide, hrate, by decide,
    by decide⟩

/-- Helper: a point already inside or on the circle passes through the
clamp unchanged. -/
theorem clamp_passthrough (p c : Point) (h : dist_to p c ≤ 200) :
    clamp_point_to_circle p c 200 = p := by
  have h' : ¬ (200 < Real.sqrt ((p.1 - c.1) ^ 2 + (p.2 - c.2) ^ 2)) :=
    not_lt.mpr h
  simp only [clamp_point_to_circle]
  rw [if_neg h']

/-- Helper: a point beyond the circle is scaled by `radius / dist` along
the same direction and lands at distance exactly the radius. -/
theorem clamp_far (p c : Point) (h : 200 < dist_to p c) :
    clamp_point_to_circle p c 200 =
      (c.1 + (p.1 - c.1) * (200 / dist_to p c),
       c.2 + (p.2 - c.2) * (200 / dist_to p c)) ∧
    dist_to (clamp_point_to_circle p c 200) c = 200 := by
  have heq : clamp_point_to_circle p c 200 =
      (c.1 + (p.1 - c.1) * (200 / dist_to p c),
       c.2 + (p.2 - c.2) * (200 / dist_to p c)) := by
    have h' : 200 < Real.sqrt ((p.1 - c.1) ^ 2 + (p.2 - c.2) ^ 2) := h
    simp only [clamp_point_to_circle]
    rw [if_pos h']
    rfl
  refine ⟨heq, ?_⟩
  rw [heq]
  have hdpos : (0 : ℝ) < dist_to p c := lt_trans (by norm_num) h
  set d := dist_to p c with hd
  have hsq : d ^ 2 = (p.1 - c.1) ^ 2 + (p.2 - c.2) ^ 2 := by
    rw [hd, dist_to, Real.sq_sqrt]
    positivity
  simp only [dist_to]
  have h1 : c.1 + (p.1 - c.1) * (200 / d) - c.1 = (p.1 - c.1) * (200 / d) := by
    ring
  have h2 : c.2 + (p.2 - c.2) * (200 / d) - c.2 = (p.2 - c.2) * (200 / d) := by
    ring
  rw [h1, h2]
  have h3 : ((p.1 - c.1) * (200 / d)) ^ 2 + ((p.2 - c.2) * (200 / d)) ^ 2 =
      (200 / d) ^ 2 * ((p.1 - c.1) ^ 2 + (p.2 - c.2) ^ 2) := by ring
  rw [h3, ← hsq, ← mul_pow, Real.sqrt_sq]
  · rw [div_mul_cancel₀]
    exact hdpos.ne'
  · positivity

/-- Helper: whatever the input, the clamped point is inside or on the
circle. -/
theorem clamp_inside (p c : Point) :
    dist_to (clamp_point_to_circle p c 200) c ≤ 200 := by
  rcases le_or_lt (dist_to p c) 200 with h | h
  · rw [clamp_passthrough p c h]
    exact h
  · rw [(clamp_far p c h).2]

/-- Helper: a mouse-move (drag of either cursor) keeps both stored
positions inside or on the circle. -/
theorem mouseMove_preserves (s : SoniSphereState) (pos : Point)
    (h : insideCircle s) : insideCircle (mouseMoveEvent s pos) := by
  by_cases hd : s.dragging
  · simp only [mouseMoveEvent, if_pos hd]
    exact ⟨clamp_inside pos _, h.2⟩
  · by_cases hsd : s.secondary_dragging
    · simp only [mouseMoveEvent, if_neg hd, if_pos hsd]
      exact ⟨h.1, clamp_inside pos _⟩
    · simp only [mouseMoveEvent, if_neg hd, if_neg hsd]
      exact h

/-- Helper: the square root of 400 is below the radius 200. -/
theorem sqrt_400_le : Real.sqrt 400 ≤ 200 := by
  rw [show (400 : ℝ) = 20 ^ 2 by norm_num,
    Real.sqrt_sq (by norm_num : (0:ℝ) ≤ 20)]
  norm_num

/-- Helper: the reset operation puts both cursors 20 px from the center,
inside the circle. -/
theorem reset_inside (s : SoniSphereState) :
    insideCircle (reset_positions s) := by
  constructor
  · show Real.sqrt ((s.width / 2 - 20 - s.width / 2) ^ 2 +
      (s.height / 2 - s.height / 2) ^ 2) ≤ 200
    rw [show (s.width / 2 - 20 - s.width / 2) ^ 2 +
      (s.height / 2 - s.height / 2) ^ 2 = 400 by ring]
    exact sqrt_400_le
  · show Real.sqrt ((s.width / 2 + 20 - s.width / 2) ^ 2 +
      (s.height / 2 - s.height / 2) ^ 2) ≤ 200
    rw [show (s.width / 2 + 20 - s.width / 2) ^ 2 +
      (s.height / 2 - s.height / 2) ^ 2 = 400 by ring]
    exact sqrt_400_le

/-- Claim C5, confirmed (over the real-valued model of the float
arithmetic): the clamp passes points at distance ≤ 200 through unchanged,
maps points at distance > 200 to the point at exactly distance 200 along
the same direction (offset scaled by `radius / distance`), and consequently
both stored cursor positions lie inside or on the circle after every
update — drag moves and the reset operation included. -/
theorem C5_cursor_clamped_to_circle :
    (∀ p c : Point, dist_to p c ≤ 200 → clamp_point_to_circle p c 200 = p) ∧
    (∀ p c : Point, 200 < dist_to p c →
      clamp_point_to_circle p c 200 =
        (c.1 + (p.1 - c.1) * (200 / dist_to p c),
         c.2 + (p.2 - c.2) * (200 / dist_to p c)) ∧
      dist_to (clamp_point_to_circle p c 200) c = 200) ∧
    (∀ p c : Point, dist_to (clamp_point_to_circle p c 200) c ≤ 200) ∧
    (∀ s pos, insideCircle s → insideCircle (mouseMoveEvent s pos)) ∧
    (∀ s, insideCircle (reset_positions s)) :=
  ⟨clamp_passthrough, clamp_far, clamp_inside, mouseMove_preserves,
    reset_inside⟩

/-- Witness for C5: the center point passes through unchanged; the point
(812, 300), at distance 300 from the center (512, 300), is clamped to
distance exactly 200; the concrete drag state stays inside the circle under
a move and under reset. -/
theorem C5_cursor_clamped_to_circle_witness :
    (dist_to ((512 : ℝ), 300) ((512 : ℝ), 300) ≤ 200 ∧
      clamp_point_to_circle ((512 : ℝ), 300) ((512 : ℝ), 300) 200 =
        ((512 : ℝ), 300)) ∧
    (200 < dist_to ((812 : ℝ), 300) ((512 : ℝ), 300) ∧
      dist_to (clamp_point_to_circle ((812 : ℝ), 300) ((512 : ℝ), 300) 200)
        ((512 : ℝ), 300) = 200) ∧
    (insideCircle demoSphere ∧
      insideCircle (mouseMoveEvent demoSphere (900, 300))) ∧
    insideCircle (reset_positions demoSphere) := by
  have hd0 : dist_to ((512 : ℝ), 300) ((512 : ℝ), 300) = 0 := by
    simp [dist_to]
  have hd300 : dist_to ((812 : ℝ), 300) ((512 : ℝ), 300) = 300 := by
    rw [dist_to,
      show ((812 : ℝ) - 512) ^ 2 + ((300 : ℝ) - 300) ^ 2 = 300 ^ 2 by norm_num,
      Real.sqrt_sq (by norm_num : (0:ℝ) ≤ 300)]
  have hle : dist_to ((512 : ℝ), 300) ((512 : ℝ), 300) ≤ 200 := by
    rw [hd0]; norm_num
  have hgt : 200 < dist_to ((812 : ℝ), 300) ((512 : ℝ), 300) := by
    rw [hd300]; norm_num
  have hin : insideCircle demoSphere := by
    constructor
    · show Real.sqrt ((512 - (1024 : ℝ) / 2) ^ 2 +
        (300 - (600 : ℝ) / 2) ^ 2) ≤ 200
      rw [show (512 - (1024 : ℝ) / 2) ^ 2 + (300 - (600 : ℝ) / 2) ^ 2 = 0
        by norm_num, Real.sqrt_zero]
      norm_num
    · show Real.sqrt ((532 - (1024 : ℝ) / 2) ^ 2 +
        (300 - (600 : ℝ) / 2) ^ 2) ≤ 200
      rw [show (532 - (1024 : ℝ) / 2) ^ 2 + (300 - (600 : ℝ) / 2) ^ 2 = 400
        by norm_num]
      exact sqrt_400_le
  exact ⟨⟨hle, C5_cursor_clamped_to_circle.1 _ _ hle⟩,
    ⟨hgt, (C5_cursor_clamped_to_circle.2.1 _ _ hgt).2⟩,
    ⟨hin, C5_cursor_clamped_to_circle.2.2.2.1 demoSphere (900, 300) hin⟩,
    C5_cursor_clamped_to_circle.2.2.2.2 demoSphere⟩

/-- Claim C8, amended: `_rename` fails with the duplicate-name dialog when
the new name belongs to a different existing preset (store untouched);
renaming to the same name succeeds and preserves the entry's data but
re-inserts it at the end of insertion order (`presets[new] =
presets.pop(old)`), so it is not a strict no-op on the ordered store; a
successful rename moves the entry under the new name with position and
values unchanged — and no variant of `_rename` persists anything: the disk
copy is only rewritten by the next save. -/
theorem C8_rename_no_persist :
    (∀ s old acc new, (rename_preset s old acc new).2.disk = s.disk) ∧
    (∀ s old new, new ≠ "" → new ≠ old → new ∈ assocKeys s.presets →
      rename_preset s old true new = (.duplicateName, s)) ∧
    (∀ s old new d, new ≠ "" → assocFind s.presets old = some d →
      (new = old ∨ new ∉ assocKeys s.presets) →
      rename_preset s old true new =
        (.renamed, { s with presets :=
          (s.presets.eraseP (fun e => e.1 == old)) ++ [(new, d)] })) := by
  refine ⟨?_, ?_, ?_⟩
  · intro s old acc new
    unfold rename_preset
    split
    · rfl
    · split
      · rfl
      · split
        · rfl
        · split <;> rfl
  · intro s old new hname hne hmem
    simp [rename_preset, hname, hne, hmem]
  · intro s old new d hname hfind hcase
    have hcond : ¬(new ≠ old ∧ new ∈ assocKeys s.presets) := by
      rcases hcase with h1 | h1
      · exact fun hc => hc.1 h1
      · exact fun hc => h1 hc.2
    simp [rename_preset, hname, hcond, hfind]

/-- Witness for C8: on the concrete two-preset store, renaming "A" to the
existing "C" is rejected with the store unchanged, and renaming "A" to
itself succeeds, re-inserting the entry at the end. -/
theorem C8_rename_no_persist_witness :
    rename_preset demoMain2 "A" true "C" = (.duplicateName, demoMain2) ∧
    rename_preset demoMain2 "A" true "A" =
      (.renamed, { demoMain2 with presets :=
        (demoMain2.presets.eraseP (fun e => e.1 == "A")) ++
          [("A", demoPresetA)] }) := by
  constructor
  · exact C8_rename_no_persist.2.1 demoMain2 "A" "C" (by decide) (by decide)
      (by decide)
  · exact C8_rename_no_persist.2.2 demoMain2 "A" "A" demoPresetA (by decide)
      (by decide) (Or.inl rfl)

/-- Counterexample to C8 as stated: renaming "A" to itself is not a no-op
(the entry moves to the end of insertion order), and a successful rename of
"A" to the fresh name "B" leaves the disk copy stale — `_rename` performs
no disk write, contradicting "persists the store to disk". -/
theorem C8_counterexample :
    (rename_preset demoMain2 "A" true "A").1 = .renamed ∧
    (rename_preset demoMain2 "A" true "A").2.presets ≠ demoMain2.presets ∧
    (rename_preset demoMain2 "A" true "B").1 = .renamed ∧
    (rename_preset demoMain2 "A" true "B").2.presets ≠
      (rename_preset demoMain2 "A" true "B").2.disk := by
  refine ⟨by decide, by decide, by decide, by decide⟩

/-- Helper: a knob turn only mutates the heap, never the preset records. -/
theorem apply_knob_change_presetRefs (s : SnapshotState) (c : KnobChange) :
    (apply_knob_change s c).presetRefs = s.presetRefs := by
  cases c <;> rfl

/-- Helper: a knob turn leaves the three live references themselves
unchanged (it mutates the cell they point to). -/
theorem apply_knob_change_liveRefs (s : SnapshotState) (c : KnobChange) :
    (apply_knob_change s c).liveModRef = s.liveModRef ∧
    (apply_knob_change s c).liveBicRef = s.liveBicRef ∧
    (apply_knob_change s c).liveEchRef = s.liveEchRef := by
  cases c <;> exact ⟨rfl, rfl, rfl⟩

/-- Helper: writing one cell leaves every other cell's contents
unchanged. -/
theorem readRef_writeRef_ne (h : List ValMap) (i r : ℕ) (m : ValMap)
    (hir : i ≠ r) : readRef (writeRef h i m) r = readRef h r := by
  unfold readRef writeRef
  rw [List.getD_eq_getElem?_getD, List.getD_eq_getElem?_getD,
    List.getElem?_set_ne hir]

/-- Helper: any sequence of knob turns leaves every cell other than the
three live cells (and all preset records) unchanged. -/
theorem apply_knob_changes_frame (cs : List KnobChange) :
    ∀ (t : SnapshotState) (r : ℕ),
      r ≠ t.liveModRef → r ≠ t.liveBicRef → r ≠ t.liveEchRef →
      readRef (apply_knob_changes t cs).heap r = readRef t.heap r ∧
      (apply_knob_changes t cs).presetRefs = t.presetRefs := by
  induction cs with
  | nil => intro t r _ _ _; exact ⟨rfl, rfl⟩
  | cons c rest ih =>
    intro t r h1 h2 h3
    have hstep : readRef (apply_knob_change t c).heap r = readRef t.heap r := by
      cases c with
      | mod n v => exact readRef_writeRef_ne _ _ _ _ (Ne.symm h1)
      | bic n v => exact readRef_writeRef_ne _ _ _ _ (Ne.symm h2)
      | ech n v => exact readRef_writeRef_ne _ _ _ _ (Ne.symm h3)
    have hlive := apply_knob_change_liveRefs t c
    have hrec := ih (apply_knob_change t c) r
      (by rw [hlive.1]; exact h1) (by rw [hlive.2.1]; exact h2)
      (by rw [hlive.2.2]; exact h3)
    have hfold : apply_knob_changes t (c :: rest) =
        apply_knob_changes (apply_knob_change t c) rest := rfl
    rw [hfold]
    exact ⟨hrec.1.trans hstep,
      hrec.2.trans (apply_knob_change_presetRefs t c)⟩

/-- Helper: reading the cell just appended to the heap. -/
theorem readRef_concat_at (h : List ValMap) (m : ValMap) :
    readRef (h ++ [m]) h.length = m := by
  unfold readRef
  rw [List.getD_append_right h [m] [] h.length (le_refl _), Nat.sub_self]
  rfl

/-- Helper: appending a cell leaves existing cells readable unchanged. -/
theorem readRef_concat_lt (h : List ValMap) (m : ValMap) (r : ℕ)
    (hr : r < h.length) : readRef (h ++ [m]) r = readRef h r := by
  unfold readRef
  rw [List.getD_append h [m] [] r hr]

/-- Claim C10, confirmed: saving a main preset records *copies* of the
three live modulation maps (fresh heap cells at indices `len`, `len+1`,
`len+2`), and any sequence of later modulation-knob changes — which mutate
the live cells in place — leaves the saved preset's recorded modulation
values exactly as captured at save time. -/
theorem C10_saved_snapshot_immutable :
    ∀ (s : SnapshotState) (name : String) (cs : List KnobChange),
      SnapshotWF s →
      (apply_knob_changes (save_snapshot s name) cs).presetRefs =
        s.presetRefs ++
          [(name, (s.heap.length, s.heap.length + 1, s.heap.length + 2))] ∧
      readRef (apply_knob_changes (save_snapshot s name) cs).heap
          s.heap.length = readRef s.heap s.liveModRef ∧
      readRef (apply_knob_changes (save_snapshot s name) cs).heap
          (s.heap.length + 1) = readRef s.heap s.liveBicRef ∧
      readRef (apply_knob_changes (save_snapshot s name) cs).heap
          (s.heap.length + 2) = readRef s.heap s.liveEchRef := by
  intro s name cs hwf
  obtain ⟨h1, h2, h3⟩ := hwf
  have hlive : (save_snapshot s name).liveModRef = s.liveModRef ∧
      (save_snapshot s name).liveBicRef = s.liveBicRef ∧
      (save_snapshot s name).liveEchRef = s.liveEchRef := ⟨rfl, rfl, rfl⟩
  have hheap : (save_snapshot s name).heap =
      ((s.heap ++ [readRef s.heap s.liveModRef]) ++
        [readRef s.heap s.liveBicRef]) ++ [readRef s.heap s.liveEchRef] := rfl
  have hrefs : (save_snapshot s name).presetRefs =
      s.presetRefs ++
        [(name, (s.heap.length, s.heap.length + 1, s.heap.length + 2))] := by
    simp [save_snapshot]
  have hne : ∀ i : ℕ, s.heap.length ≤ i →
      i ≠ (save_snapshot s name).liveModRef ∧
      i ≠ (save_snapshot s name).liveBicRef ∧
      i ≠ (save_snapshot s name).liveEchRef := by
    intro i hi
    exact ⟨by rw [hlive.1]; exact (lt_of_lt_of_le h1 hi).ne',
      by rw [hlive.2.1]; exact (lt_of_lt_of_le h2 hi).ne',
      by rw [hlive.2.2]; exact (lt_of_lt_of_le h3 hi).ne'⟩
  have hframe0 := apply_knob_changes_frame cs (save_snapshot s name)
    s.heap.length (hne s.heap.length (le_refl _)).1
    (hne _ (le_refl _)).2.1 (hne _ (le_refl _)).2.2
  have hframe1 := apply_knob_changes_frame cs (save_snapshot s name)
    (s.heap.length + 1) (hne _ (Nat.le_add_right _ _)).1
    (hne _ (Nat.le_add_right _ _)).2.1 (hne _ (Nat.le_add_right _ _)).2.2
  have hframe2 := apply_knob_changes_frame cs (save_snapshot s name)
    (s.heap.length + 2) (hne _ (Nat.le_add_right _ _)).1
    (hne _ (Nat.le_add_right _ _)).2.1 (hne _ (Nat.le_add_right _ _)).2.2
  have hlen1 : (s.heap ++ [readRef s.heap s.liveModRef]).length =
      s.heap.length + 1 := by simp
  have hlen2 : ((s.heap ++ [readRef s.heap s.liveModRef]) ++
      [readRef s.heap s.liveBicRef]).length = s.heap.length + 2 := by simp
  refine ⟨hframe0.2.trans hrefs, ?_, ?_, ?_⟩
  · rw [hframe0.1, hheap]
    rw [readRef_concat_lt _ _ _ (by simp), readRef_concat_lt _ _ _ (by simp),
      readRef_concat_at]
  · rw [hframe1.1, hheap]
    rw [readRef_concat_lt _ _ _ (by simp), ← hlen1, readRef_concat_at]
  · rw [hframe2.1, hheap, ← hlen2, readRef_concat_at]

/-- Witness for C10: the three live maps live in cells 0, 1, 2; after
saving preset "A" and then turning the Rate knob of the chorus bank to 99,
the saved snapshot still reads the save-time `Rate = 2`. -/
theorem C10_saved_snapshot_immutable_witness :
    SnapshotWF demoSnap ∧
    (apply_knob_changes (save_snapshot demoSnap "A")
        [KnobChange.bic "Rate" 99]).presetRefs =
      demoSnap.presetRefs ++
        [("A", (demoSnap.heap.length, demoSnap.heap.length + 1,
          demoSnap.heap.length + 2))] ∧
    readRef (apply_knob_changes (save_snapshot demoSnap "A")
        [KnobChange.bic "Rate" 99]).heap (demoSnap.heap.length + 1) =
      readRef demoSnap.heap demoSnap.liveBicRef ∧
    readRef demoSnap.heap demoSnap.liveBicRef = [("Rate", 2)] := by
  have hwf : SnapshotWF demoSnap := ⟨by decide, by decide, by decide⟩
  have h := C10_saved_snapshot_immutable demoSnap "A"
    [KnobChange.bic "Rate" 99] hwf
  exact ⟨hwf, h.1, h.2.2.1, by decide⟩

/-- Helper: the grid scan order is rows 1..4, columns A..F. -/
theorem gridSlots_eq :
    gridSlots = ["1A", "1B", "1C", "1D", "1E", "1F",
                 "2A", "2B", "2C", "2D", "2E", "2F",
                 "3A", "3B", "3C", "3D", "3E", "3F",
                 "4A", "4B", "4C", "4D", "4E", "4F"] := by decide

/-- Helper: the 24 grid coordinates are pairwise distinct. -/
theorem gridSlots_nodup : gridSlots.Nodup := by decide

/-- Helper: there are 24 grid coordinates. -/
theorem gridSlots_length : gridSlots.length = 24 := by decide

/-- Helper: when the occupied slots are exactly the first `k` of the scan
order, the allocator returns slot `k` (extending the prefix by one). -/
theorem nextPos_take_concat : ∀ k : ℕ, k < 24 →
    gridSlots.take k ++ [nextPosOfUsed (gridSlots.take k)] =
      gridSlots.take (k + 1) := by decide

/-- Helper: the success path of `_save_preset` — fresh nonempty name,
accepted dialog — appends the preset at the allocator's slot, mirrors the
store to disk, and updates the current name/position. -/
theorem save_preset_ok (s : MainState) (name : String) (hname : name ≠ "")
    (hfresh : name ∉ assocKeys s.presets) :
    save_preset s true name =
      (.saved (next_pos s.presets),
       { s with
         presets := s.presets ++ [(name,
           ⟨next_pos s.presets,
            s.sliders.map (fun e => (e.1, (e.2 : ℚ) / 10)),
            s.liveMod, s.liveBic, s.liveEch⟩)],
         disk := s.presets ++ [(name,
           ⟨next_pos s.presets,
            s.sliders.map (fun e => (e.1, (e.2 : ℚ) / 10)),
            s.liveMod, s.liveBic, s.liveEch⟩)],
         currentName := name, currentPos := next_pos s.presets }) := by
  simp [save_preset, hname, hfresh]

/-- Helper: a run of fresh-name saves starting from a store whose occupied
slots are the first `k` of the scan order fills the next slots in scan
order and appends the names in order. -/
theorem saveAll_fill (names : List String) :
    ∀ s : MainState,
      usedPositions s.presets = gridSlots.take s.presets.length →
      s.presets.length + names.length ≤ 24 →
      (∀ n ∈ names, n ≠ "") →
      (assocKeys s.presets ++ names).Nodup →
      usedPositions (saveAll s names).presets =
        gridSlots.take (s.presets.length + names.length) ∧
      assocKeys (saveAll s names).presets = assocKeys s.presets ++ names := by
  induction names with
  | nil =>
    intro s hpos _ _ _
    exact ⟨by simpa using hpos, by simp [saveAll]⟩
  | cons n rest ih =>
    intro s hpos hlen hval hnodup
    have hfresh : n ∉ assocKeys s.presets := by
      rcases List.nodup_append.mp hnodup with ⟨_, _, hdisj⟩
      intro hmem
      exact hdisj hmem (List.mem_cons_self n rest)
    have hname : n ≠ "" := hval n (List.mem_cons_self n rest)
    have hklt : s.presets.length < 24 := by
      simp [List.length_cons] at hlen
      omega
    have hstep : saveAll s (n :: rest) =
        saveAll (save_preset s true n).2 rest := rfl
    rw [hstep, save_preset_ok s n hname hfresh]
    set entry : MainPreset :=
      ⟨next_pos s.presets, s.sliders.map (fun e => (e.1, (e.2 : ℚ) / 10)),
       s.liveMod, s.liveBic, s.liveEch⟩
      with hentry
    have hpos' : usedPositions (s.presets ++ [(n, entry)]) =
        gridSlots.take (s.presets.length + 1) := by
      rw [show usedPositions (s.presets ++ [(n, entry)]) =
          usedPositions s.presets ++ [entry.position] by simp [usedPositions]]
      rw [hpos, hentry]
      show gridSlots.take s.presets.length ++
        [next_pos s.presets] = gridSlots.take (s.presets.length + 1)
      rw [show next_pos s.presets =
          nextPosOfUsed (gridSlots.take s.presets.length) by
        rw [next_pos, hpos]]
      exact nextPos_take_concat s.presets.length hklt
    have hkeys' : assocKeys (s.presets ++ [(n, entry)]) =
        assocKeys s.presets ++ [n] := by simp [assocKeys]
    have hrec := ih
      { s with
        presets := s.presets ++ [(n, entry)],
        disk := s.presets ++ [(n, entry)],
        currentName := n, currentPos := next_pos s.presets }
      (by simpa [hkeys'] using hpos')
      (by
        have hlen' : s.presets.length + (rest.length + 1) ≤ 24 := by
          simpa using hlen
        simp
        omega)
      (fun m hm => hval m (List.mem_cons_of_mem n hm))
      (by rw [hkeys', List.append_assoc]; simpa using hnodup)
    refine ⟨?_, ?_⟩
    · rw [hrec.1]
      congr 1
      simp
      omega
    · rw [hrec.2, hkeys', List.append_assoc]
      rfl

/-- Helper: on a store where every grid slot is occupied the allocator
returns the sentinel `"??"`. -/
theorem next_pos_full (ps : List (String × MainPreset))
    (hall : ∀ p ∈ gridSlots, p ∈ usedPositions ps) :
    next_pos ps = "??" := by
  have h : gridSlots.find? (fun p => !((usedPositions ps).contains p)) =
      none :=
    List.find?_eq_none.mpr (fun p hp => by simp [hall p hp])
  unfold next_pos nextPosOfUsed
  rw [h]
  rfl

/-- Helper: `find?` returns `q` when `q` satisfies the predicate and every
other element of the list fails it. -/
theorem find?_unique {α : Type} (l : List α) (pred : α → Bool) (q : α)
    (hq : q ∈ l) (hpq : pred q = true)
    (hothers : ∀ p ∈ l, p ≠ q → pred p = false) :
    l.find? pred = some q := by
  induction l with
  | nil => cases hq
  | cons a rest ih =>
    by_cases ha : a = q
    · subst ha
      exact List.find?_cons_of_pos rest hpq
    · have hpa : pred a = false :=
        hothers a (List.mem_cons_self a rest) ha
      rw [List.find?_cons_of_neg rest (by simp [hpa])]
      exact ih ((List.mem_cons.mp hq).resolve_left (fun he => ha he.symm))
        (fun p hp hpq2 => hothers p (List.mem_cons_of_mem a hp) hpq2)

/-- Helper: when exactly one grid slot `q` is free, the allocator returns
`q` — the re-scan picks up a freed slot, not a higher one. -/
theorem nextPos_one_free (used : List String) (q : String)
    (hq : q ∈ gridSlots) (hqfree : q ∉ used)
    (hrest : ∀ p ∈ gridSlots, p ≠ q → p ∈ used) :
    nextPosOfUsed used = q := by
  have hcq : used.contains q = false := by
    cases h : used.contains q
    · rfl
    · exact absurd (List.elem_iff.mp h) hqfree
  unfold nextPosOfUsed
  rw [find?_unique gridSlots _ q hq (by
      show (!used.contains q) = true
      rw [hcq]
      rfl)
    (fun p hp hpq => by
      have hc : used.contains p = true := List.elem_iff.mpr (hrest p hp hpq)
      show (!used.contains p) = false
      rw [hc]
      rfl)]
  rfl

/-- Helper: deleting a preset from a fully occupied store and saving a
fresh name reassigns exactly the freed slot. -/
theorem save_after_delete
    (s : MainState) (l1 l2 : List (String × MainPreset)) (dName name : String)
    (d : MainPreset)
    (hps : s.presets = l1 ++ (dName, d) :: l2)
    (hl1 : ∀ e ∈ l1, e.1 ≠ dName)
    (hall : ∀ p ∈ gridSlots, p ∈ usedPositions s.presets)
    (hnd : (usedPositions s.presets).Nodup)
    (hqgrid : d.position ∈ gridSlots)
    (hname : name ≠ "")
    (hfresh : name ∉ assocKeys (delete_preset s dName true).presets) :
    (save_preset (delete_preset s dName true) true name).1 =
      .saved d.position := by
  have herase : (delete_preset s dName true).presets = l1 ++ l2 := by
    show (s.presets.eraseP (fun e => e.1 == dName)) = l1 ++ l2
    rw [hps, List.eraseP_append_right _ (fun e he => by simp [hl1 e he])]
    congr 1
    rw [List.eraseP_cons_of_pos (by simp)]
  have hused : usedPositions s.presets =
      usedPositions l1 ++ d.position :: usedPositions l2 := by
    simp [hps, usedPositions]
  have hused' : usedPositions (l1 ++ l2) =
      usedPositions l1 ++ usedPositions l2 := by
    simp [usedPositions]
  have hqfree : d.position ∉ usedPositions l1 ++ usedPositions l2 := by
    rw [hused] at hnd
    exact (List.nodup_cons.mp (List.nodup_middle.mp hnd)).1
  have hrest : ∀ p ∈ gridSlots, p ≠ d.position →
      p ∈ usedPositions l1 ++ usedPositions l2 := by
    intro p hp hpq
    have hm := hall p hp
    rw [hused] at hm
    rcases List.mem_append.mp hm with h1 | h1
    · exact List.mem_append.mpr (Or.inl h1)
    · rcases List.mem_cons.mp h1 with h2 | h2
      · exact absurd h2 hpq
      · exact List.mem_append.mpr (Or.inr h2)
  have hnp : next_pos (delete_preset s dName true).presets = d.position := by
    rw [next_pos, herase, hused']
    exact nextPos_one_free _ _ hqgrid hqfree hrest
  rw [save_preset_ok _ name hname hfresh]
  simp [hnp]

/-- Claim C2, amended: every successful save assigns the first slot (rows
1..4 then columns A..F, row-major) not occupied by any existing preset; 24
fresh-name saves into an empty store fill slots "1A".."4F" in scan order
with no duplicate slots; after deleting a preset from a full store the very
next save reuses exactly the freed slot (first free by re-scan).  But a
25th save into a full store does *not* surface a capacity error: the
allocator returns the sentinel `"??"` and `_save_preset` stores the preset
at pseudo-position `"??"` anyway (reporting success), because no caller
checks for the sentinel. -/
theorem C2_slot_allocation :
    gridSlots = ["1A", "1B", "1C", "1D", "1E", "1F",
                 "2A", "2B", "2C", "2D", "2E", "2F",
                 "3A", "3B", "3C", "3D", "3E", "3F",
                 "4A", "4B", "4C", "4D", "4E", "4F"] ∧
    gridSlots.Nodup ∧
    (∀ s name, name ≠ "" → name ∉ assocKeys s.presets →
      (save_preset s true name).1 = .saved (next_pos s.presets)) ∧
    (∀ (names : List String) (s : MainState), s.presets = [] →
      names.length = 24 → (∀ n ∈ names, n ≠ "") → names.Nodup →
      usedPositions (saveAll s names).presets = gridSlots ∧
      assocKeys (saveAll s names).presets = names) ∧
    (∀ s name, (∀ p ∈ gridSlots, p ∈ usedPositions s.presets) →
      name ≠ "" → name ∉ assocKeys s.presets →
      (save_preset s true name).1 = .saved "??" ∧
      (save_preset s true name).2.presets = s.presets ++ [(name,
        ⟨"??", s.sliders.map (fun e => (e.1, (e.2 : ℚ) / 10)),
         s.liveMod, s.liveBic, s.liveEch⟩)]) ∧
    (∀ (s : MainState) (l1 l2 : List (String × MainPreset))
        (dName name : String) (d : MainPreset),
      s.presets = l1 ++ (dName, d) :: l2 →
      (∀ e ∈ l1, e.1 ≠ dName) →
      (∀ p ∈ gridSlots, p ∈ usedPositions s.presets) →
      (usedPositions s.presets).Nodup →
      d.position ∈ gridSlots →
      name ≠ "" →
      name ∉ assocKeys (delete_preset s dName true).presets →
      (save_preset (delete_preset s dName true) true name).1 =
        .saved d.position) := by
  refine ⟨gridSlots_eq, gridSlots_nodup, ?_, ?_, ?_, save_after_delete⟩
  · intro s name h1 h2
    rw [save_preset_ok s name h1 h2]
  · intro names s hps hlen hval hnd
    have h := saveAll_fill names s
      (by simp [hps, usedPositions])
      (by simp [hps, hlen])
      hval
      (by simpa [hps, assocKeys] using hnd)
    rw [hps] at h
    simp only [List.length_nil, Nat.zero_add, hlen] at h
    rw [show gridSlots.take 24 = gridSlots by
      rw [← gridSlots_length, List.take_length]] at h
    simpa [assocKeys] using h
  · intro s name hall h1 h2
    have h := save_preset_ok s name h1 h2
    rw [next_pos_full s.presets hall] at h
    rw [h]
    exact ⟨rfl, rfl⟩

/-- Witness for C2: a save into the empty store assigns the allocator's
slot; the 24 concrete names fill "1A".."4F" in order; a fresh save into the
concrete full store is stored at the sentinel "??"; deleting the preset at
"2C" from the full store and saving "X" reassigns "2C". -/
theorem C2_slot_allocation_witness :
    (("X" : String) ≠ "" ∧ "X" ∉ assocKeys emptyMain.presets ∧
      (save_preset emptyMain true "X").1 = .saved (next_pos emptyMain.presets)) ∧
    (demoNames.length = 24 ∧ demoNames.Nodup ∧
      usedPositions (saveAll emptyMain demoNames).presets = gridSlots ∧
      assocKeys (saveAll emptyMain demoNames).presets = demoNames) ∧
    ((∀ p ∈ gridSlots, p ∈ usedPositions fullMain.presets) ∧
      (save_preset fullMain true "P25").1 = .saved "??") ∧
    (save_preset (delete_preset fullMain "N2C" true) true "X").1 =
      .saved "2C" := by
  have hfill := C2_slot_allocation.2.2.2.1 demoNames emptyMain rfl
    (by decide) (by decide) (by decide)
  have hfullsave := C2_slot_allocation.2.2.2.2.1 fullMain "P25"
    (by decide) (by decide) (by decide)
  have hdel := C2_slot_allocation.2.2.2.2.2 fullMain
    ((gridSlots.take 8).map (fun p => ("N" ++ p,
      (⟨p, [], [], [], []⟩ : MainPreset))))
    ((gridSlots.drop 9).map (fun p => ("N" ++ p,
      (⟨p, [], [], [], []⟩ : MainPreset))))
    "N2C" "X" ⟨"2C", [], [], [], []⟩
    (by decide) (by decide) (by decide) (by decide) (by decide) (by decide)
    (by decide)
  exact ⟨⟨by decide, by decide,
      C2_slot_allocation.2.2.1 emptyMain "X" (by decide) (by decide)⟩,
    ⟨by decide, by decide, hfill.1, hfill.2⟩,
    ⟨by decide, hfullsave.1⟩, hdel⟩

/-- Counterexample to C2 as stated: a fresh-name save into the concrete
full store does not return a capacity error — it succeeds with the sentinel
position "??" and the preset *is* stored. -/
theorem C2_counterexample :
    (save_preset fullMain true "P25").1 = .saved "??" ∧
    "P25" ∈ assocKeys (save_preset fullMain true "P25").2.presets := by
  constructor
  · decide
  · decide
